import Mathlib

/-!
Verification development for the audit-recon application (src/app.py).

The development shallowly embeds the retrieval and classification core of
the application: the URL sanitizer, the Exa-with-BeautifulSoup-fallback
crawl function run_compliance_crawl, the SerpApi search wrapper
run_google_test, the keyword scanner analyze_risk_keywords, and the input
gate of the run-button handler.  External collaborators (the Exa client,
requests.get, the BeautifulSoup text extraction, the SerpApi client) are
modelled as explicit oracle functions passed in as a record, so every
embedded operation is a total computable Lean function; raised exceptions
of a collaborator are modelled as an explicit variant of the oracle
result, and the calls the code issues are recorded in a trace list.
-/

namespace AuditRecon

/-- Checks whether the first character list is a prefix of any suffix of
the second, the recursion behind the substring membership model. -/
def strInAux (n : List Char) : List Char → Bool
  | [] => n.isPrefixOf []
  | c :: rest => n.isPrefixOf (c :: rest) || strInAux n rest

/-- Model of Python substring membership, needle in haystack, over the
code points of the strings: true when the character list of the needle is
a contiguous infix of the character list of the haystack. -/
def strIn (needle : String) (haystack : String) : Bool :=
  strInAux needle.data haystack.data

/-- Model of the Python str.startswith check over code points. -/
def strStartsWith (s : String) (p : String) : Bool :=
  p.data.isPrefixOf s.data

/-- Model of Python str.lower, mapping each character to lower case; it
agrees with the Python method on the ASCII texts the application handles. -/
def strLower (s : String) : String :=
  ⟨s.data.map Char.toLower⟩

/-- URL sanitization step of run_compliance_crawl (src/app.py lines 80 to
82): if the url starts with neither http scheme marker, https is
prepended; otherwise the url is returned unchanged. -/
def normalize_url (url : String) : String :=
  if strStartsWith url "http://" || strStartsWith url "https://" then url
  else "https://" ++ url

/-- Python falsiness of the api_key value handed to the two engine
functions: the key is absent (None) or the empty string. -/
def apiKeyFalsy : Option String → Bool
  | none => true
  | some s => s == ""

/-- The hardcoded risk keyword clusters of analyze_risk_keywords
(src/app.py lines 123 to 127), in source order. -/
def risk_keywords : List (String × List String) :=
  [("Promissory / Guarantees", ["guaranteed return", "risk-free", "no loss", "guaranteed income"]),
   ("Unapproved Products", ["crypto", "private equity", "hedge fund", "bitcoin", "ethereum"]),
   ("Testimonials (SEC Rule)", ["reviews", "star rating", "5 stars", "testimonials"])]

/-- The flag string the analyzer appends for one matched keyword,
mirroring the f-string of src/app.py line 135. -/
def finding_str (category : String) (keyword : String) : String :=
  "🔴 **" ++ category ++ "**: Found term \x27" ++ keyword ++ "\x27"

/-- Embedding of analyze_risk_keywords (src/app.py lines 121 to 137): the
text is lower-cased once, then every cluster is walked in source order and
every keyword of the cluster in source order, appending a flag string for
each keyword contained in the lower-cased text. -/
def analyze_risk_keywords (text : String) : List String :=
  let text_lower := strLower text
  risk_keywords.foldl
    (fun found_risks p =>
      p.2.foldl
        (fun fr keyword =>
          if strIn keyword text_lower then fr ++ [finding_str p.1 keyword] else fr)
        found_risks)
    []

/-- One extraction record of an Exa get_contents response: the piece of
the result object the application reads is its text attribute. -/
structure ExaResult where
  text : String
deriving DecidableEq, Repr

/-- Behaviour of one exa.get_contents call: either a response carrying
its results list, or a raised exception with its message. -/
inductive ExaResponse where
  | results (rs : List ExaResult)
  | exn (msg : String)
deriving DecidableEq, Repr

/-- Behaviour of one requests.get call issued with the browser
User-Agent header and timeout 10 of src/app.py lines 97 to 100: either an
HTTP response with its status code and decoded body text, or a raised
transport exception (DNS, connection, TLS, timeout) with its message. -/
inductive FetchResponse where
  | response (status : Nat) (body : String)
  | exn (msg : String)
deriving DecidableEq, Repr

/-- The external collaborators of run_compliance_crawl, as oracle
functions of the requested URL.  soupGetText stands for the BeautifulSoup
pipeline applied to a response body at src/app.py lines 103 to 109:
parse, decompose every script and style element, then get_text with a
space separator and stripping.  httpErrMsg gives the str of the HTTPError
that response.raise_for_status raises for a given status code. -/
structure Collaborators where
  exaGetContents : String → ExaResponse
  requestsGet : String → FetchResponse
  soupGetText : String → String
  httpErrMsg : Nat → String

/-- Which source produced the returned content object: the first Exa
result object, or the MockResult the fallback builds at src/app.py lines
112 to 116. -/
inductive CrawlSource where
  | primary
  | fallback
deriving DecidableEq, Repr

/-- The value of the Python return tuple (data, error) of
run_compliance_crawl: either a content object carrying text, tagged with
the source that produced it, or None paired with an error message. -/
inductive CrawlOutcome where
  | ok (source : CrawlSource) (text : String)
  | err (message : String)
deriving DecidableEq, Repr

/-- One network call run_compliance_crawl issues, recorded in order. -/
inductive CrawlCall where
  | exaCall (url : String)
  | fetchCall (url : String)
deriving DecidableEq, Repr

/-- Model of response.raise_for_status of the requests library, which
raises HTTPError exactly for status codes of the client and server error
classes, 400 to 599. -/
def raiseForStatus (status : Nat) : Bool :=
  400 ≤ status && status < 600

/-- The error message format of the final except clause of
run_compliance_crawl (src/app.py line 119). -/
def scrapingFailedMsg (e : String) : String :=
  "Scraping Failed (Both Exa & Fallback): " ++ e

/-- The BeautifulSoup fallback branch of run_compliance_crawl (src/app.py
lines 94 to 119): one direct GET on the url; a transport exception or the
HTTPError of raise_for_status lands in the except clause and yields the
combined failure message, while any non-raising status yields the cleaned
body text wrapped as a MockResult. -/
def crawlFallback (c : Collaborators) (u : String) (calls : List CrawlCall) :
    CrawlOutcome × List CrawlCall :=
  match c.requestsGet u with
  | FetchResponse.exn m =>
    (CrawlOutcome.err (scrapingFailedMsg m), calls ++ [CrawlCall.fetchCall u])
  | FetchResponse.response status body =>
    if raiseForStatus status then
      (CrawlOutcome.err (scrapingFailedMsg (c.httpErrMsg status)),
        calls ++ [CrawlCall.fetchCall u])
    else
      (CrawlOutcome.ok CrawlSource.fallback (c.soupGetText body),
        calls ++ [CrawlCall.fetchCall u])

/-- Embedding of run_compliance_crawl (src/app.py lines 72 to 119).  A
falsy api_key returns the missing-key error at once.  Otherwise the url
is sanitized, Exa is tried first: a response with a non-empty results
list returns its first result as PRIMARY content; an empty results list
or a raised Exa exception falls through to the BeautifulSoup fallback.
The second component records the network calls issued. -/
def run_compliance_crawl (c : Collaborators) (url : String)
    (api_key : Option String) : CrawlOutcome × List CrawlCall :=
  if apiKeyFalsy api_key then (CrawlOutcome.err "API Key Missing", [])
  else
    match c.exaGetContents (normalize_url url) with
    | ExaResponse.results (r :: _) =>
      (CrawlOutcome.ok CrawlSource.primary r.text,
        [CrawlCall.exaCall (normalize_url url)])
    | ExaResponse.results [] =>
      crawlFallback c (normalize_url url) [CrawlCall.exaCall (normalize_url url)]
    | ExaResponse.exn _ =>
      crawlFallback c (normalize_url url) [CrawlCall.exaCall (normalize_url url)]

/-- One request record handed to the SerpApi GoogleSearch client,
mirroring the dictionary built at src/app.py line 67. -/
structure SearchRequest where
  q : String
  api_key : String
  num : Nat
deriving DecidableEq, Repr

/-- Behaviour of the SerpApi client on one request: either the dictionary
get_dict returns, or a raised exception with its message. -/
inductive SerpResponse (α : Type) where
  | dict (d : α)
  | exn (msg : String)

/-- Embedding of run_google_test (src/app.py lines 60 to 70).  The serp
oracle stands for constructing GoogleSearch on the request dictionary and
calling get_dict.  The returned pair mirrors the Python return tuple
(data, error); the second component of the outer pair records the request
actually issued to the provider. -/
def run_google_test {α : Type} (serp : SearchRequest → SerpResponse α)
    (name : String) (city : String) (api_key : Option String) :
    (Option α × Option String) × List SearchRequest :=
  if apiKeyFalsy api_key then ((none, some "API Key Missing"), [])
  else
    let query := name ++ " financial advisor " ++ city
    let req : SearchRequest := ⟨query, api_key.getD "", 5⟩
    match serp req with
    | SerpResponse.dict d => ((some d, none), [req])
    | SerpResponse.exn m => ((none, some m), [req])

/-- Result of the input gate at the top of the run-button handler. -/
inductive RunGate where
  | halted (warning : String)
  | proceeds (crawl_target : String)
deriving DecidableEq, Repr

/-- Warning text shown when the gate halts the run (src/app.py line 174). -/
def gateWarning : String :=
  "⚠️ Please provide Advisor Name, City, and the Target Website URL."

/-- Embedding of the run-button handler gate and target resolution
(src/app.py lines 172 to 175 and 200 to 202): the handler stops with a
warning unless advisor name, city and the explicit target URL are all
truthy non-empty strings, and when it proceeds the crawl is invoked on
the explicit target URL input.  The top link of the search results, if
any, is passed in to record that the handler never consults it when
choosing the crawl target. -/
def run_btn_handler (advisor_name : String) (city_loc : String)
    (target_url_input : String) (search_top_link : Option String) : RunGate :=
  if advisor_name == "" || city_loc == "" || target_url_input == "" then
    RunGate.halted gateWarning
  else
    RunGate.proceeds target_url_input

/-- Failure of the primary extraction attempt as the code treats it: the
Exa call yields an empty results list, or raises an exception. -/
def primaryFails (c : Collaborators) (u : String) : Prop :=
  c.exaGetContents u = ExaResponse.results [] ∨
    ∃ m, c.exaGetContents u = ExaResponse.exn m

/-- Missing-disclosure computation as the specification describes it.
The source file has no such computation at all, so this definition
renders the specification words only, for comparison with the embedded
classifier: a disclosure is reported missing when its lower-cased form is
not a substring of the lower-cased text. -/
def spec_missingDisclosures (mandatoryDisclosures : List String)
    (text : String) : List String :=
  mandatoryDisclosures.filter (fun d => !(strIn (strLower d) (strLower text)))

/-- Sample page text containing the FINRA membership notice, no SIPC
notice, and none of the configured risk keywords. -/
def finraOnlyText : String := "Our firm is a proud Member FINRA."

/-- Concrete collaborator behaviour: the Exa call raises and the direct
fetch is answered with HTTP status 403. -/
def collabExaFail403 : Collaborators :=
  ⟨fun _ => ExaResponse.exn "Exa API error: rate limit exceeded",
   fun _ => FetchResponse.response 403 "<html><body>Forbidden</body></html>",
   fun body => body,
   fun _ => "403 Client Error: Forbidden"⟩

/-- Concrete collaborator behaviour: the Exa call raises and the direct
fetch succeeds with HTTP status 200. -/
def collabFallbackOk : Collaborators :=
  ⟨fun _ => ExaResponse.exn "Exa API error: quota exceeded",
   fun _ => FetchResponse.response 200 "<p>Guaranteed income for life</p>",
   fun _ => "Guaranteed income for life",
   fun _ => "HTTP Error"⟩

/-- Concrete collaborator behaviour: the Exa call returns a single result
object whose text attribute is the empty string. -/
def collabEmptyText : Collaborators :=
  ⟨fun _ => ExaResponse.results [⟨""⟩],
   fun _ => FetchResponse.exn "not reached",
   fun body => body,
   fun _ => "HTTP Error"⟩

/-- A SerpApi oracle that answers every request with an empty dictionary
value. -/
def serpUnit : SearchRequest → SerpResponse Unit :=
  fun _ => SerpResponse.dict ()

/-- Folding a guarded append over a list collects exactly the filtered,
mapped elements after the accumulator. -/
theorem foldl_guard_append {α β : Type} (p : α → Bool) (g : α → β) :
    ∀ (l : List α) (acc : List β),
      l.foldl (fun fr x => if p x then fr ++ [g x] else fr) acc =
        acc ++ (l.filter p).map g := by
  intro l
  induction l with
  | nil => intro acc; simp
  | cons x xs ih =>
    intro acc
    by_cases hx : p x = true
    · simp [List.foldl_cons, hx, ih, List.filter_cons]
    · rw [Bool.not_eq_true] at hx
      simp [List.foldl_cons, hx, ih, List.filter_cons]

/-- Folding the per-cluster scan over a cluster list collects the flat
map of the per-cluster findings after the accumulator. -/
theorem foldl_clusters_eq (tl : String) :
    ∀ (l : List (String × List String)) (acc : List String),
      l.foldl
        (fun found_risks p =>
          p.2.foldl
            (fun fr keyword =>
              if strIn keyword tl then fr ++ [finding_str p.1 keyword] else fr)
            found_risks)
        acc =
      acc ++ l.flatMap
        (fun q => (q.2.filter (fun kw => strIn kw tl)).map (finding_str q.1)) := by
  intro l
  induction l with
  | nil => intro acc; simp
  | cons x xs ih =>
    intro acc
    rw [List.foldl_cons, foldl_guard_append, ih, List.flatMap_cons]
    simp

/-- The analyzer output is the in-order flat map of the filtered keyword
clusters. -/
theorem analyze_eq_flatMap (text : String) :
    analyze_risk_keywords text =
      risk_keywords.flatMap
        (fun q =>
          (q.2.filter (fun kw => strIn kw (strLower text))).map
            (finding_str q.1)) := by
  unfold analyze_risk_keywords
  rw [foldl_clusters_eq]
  simp

/-- Under a truthy key and a failing primary attempt, the crawl is the
fallback branch run after the recorded Exa call. -/
theorem run_crawl_fallback_eq (c : Collaborators) (url : String)
    (k : Option String) (hk : apiKeyFalsy k = false)
    (hp : primaryFails c (normalize_url url)) :
    run_compliance_crawl c url k =
      crawlFallback c (normalize_url url)
        [CrawlCall.exaCall (normalize_url url)] := by
  unfold run_compliance_crawl
  rcases hp with h | ⟨m, h⟩ <;> simp [hk, h]

/-- Claim C1, counterexample.  With the primary extraction raising and
the direct fetch answered with HTTP status 403, run_compliance_crawl
returns the generic error outcome carrying the combined scraping-failed
message; there is no distinct blocked outcome carrying the status, since
the code folds every raise_for_status exception into the same except
clause as transport failures. -/
theorem claim1_cex :
    (run_compliance_crawl collabExaFail403 "example.com" (some "exa-key")).1 =
      CrawlOutcome.err (scrapingFailedMsg "403 Client Error: Forbidden") := by
  decide

/-- Claim C1, amended.  After a failing primary attempt, a direct fetch
answered with any status in the raising range 400 to 599, 403 included,
yields the generic error outcome with the combined scraping-failed
message wrapping the HTTPError text, not a distinct blocked outcome. -/
theorem claim1_http_error_generic (c : Collaborators) (url : String)
    (k : Option String) (status : Nat) (body : String)
    (hk : apiKeyFalsy k = false) (hp : primaryFails c (normalize_url url))
    (hf : c.requestsGet (normalize_url url) = FetchResponse.response status body)
    (h4 : 400 ≤ status) (h6 : status < 600) :
    (run_compliance_crawl c url k).1 =
      CrawlOutcome.err (scrapingFailedMsg (c.httpErrMsg status)) := by
  rw [run_crawl_fallback_eq c url k hk hp]
  unfold crawlFallback
  rw [hf]
  have hr : raiseForStatus status = true := by
    unfold raiseForStatus
    simp
    omega
  simp [hr]

/-- Claim C1, witness for the amended theorem at the 403 behaviour. -/
theorem claim1_http_error_generic_witness :
    apiKeyFalsy (some "exa-key") = false ∧ 400 ≤ 403 ∧ 403 < 600 ∧
    (run_compliance_crawl collabExaFail403 "example.com" (some "exa-key")).1 =
      CrawlOutcome.err (scrapingFailedMsg (collabExaFail403.httpErrMsg 403)) :=
  ⟨by decide, by decide, by decide,
    claim1_http_error_generic collabExaFail403 "example.com" (some "exa-key")
      403 "<html><body>Forbidden</body></html>" (by decide)
      (Or.inr ⟨"Exa API error: rate limit exceeded", rfl⟩) rfl
      (by decide) (by decide)⟩

/-- The fallback branch always returns a fallback success or a generic
scraping-failed error. -/
theorem crawlFallback_cases (c : Collaborators) (u : String)
    (calls : List CrawlCall) :
    (∃ t, (crawlFallback c u calls).1 = CrawlOutcome.ok CrawlSource.fallback t) ∨
    (∃ m, (crawlFallback c u calls).1 = CrawlOutcome.err (scrapingFailedMsg m)) := by
  unfold crawlFallback
  cases hf : c.requestsGet u with
  | exn m => exact Or.inr ⟨m, rfl⟩
  | response status body =>
    by_cases hr : raiseForStatus status = true
    · exact Or.inr ⟨c.httpErrMsg status, by simp [hr]⟩
    · rw [Bool.not_eq_true] at hr
      exact Or.inl ⟨c.soupGetText body, by simp [hr]⟩

/-- Claim C4: for every collaborator behaviour, URL and key value, the
embedded run_compliance_crawl terminates in one of its return shapes: the
missing-key error, a primary success, a fallback success, or the generic
scraping-failed error; no execution path escapes by an exception, since
both collaborator attempts are wrapped in except clauses that produce the
returned tuple. -/
theorem claim4_never_raises (c : Collaborators) (url : String)
    (k : Option String) :
    (run_compliance_crawl c url k).1 = CrawlOutcome.err "API Key Missing" ∨
    (∃ t, (run_compliance_crawl c url k).1 =
      CrawlOutcome.ok CrawlSource.primary t) ∨
    (∃ t, (run_compliance_crawl c url k).1 =
      CrawlOutcome.ok CrawlSource.fallback t) ∨
    (∃ m, (run_compliance_crawl c url k).1 =
      CrawlOutcome.err (scrapingFailedMsg m)) := by
  unfold run_compliance_crawl
  by_cases hk : apiKeyFalsy k = true
  · simp [hk]
  · rw [Bool.not_eq_true] at hk
    cases hexa : c.exaGetContents (normalize_url url) with
    | results rs =>
      cases rs with
      | nil =>
        rcases crawlFallback_cases c (normalize_url url)
            [CrawlCall.exaCall (normalize_url url)] with ⟨t, ht⟩ | ⟨m, hm⟩
        · exact Or.inr (Or.inr (Or.inl ⟨t, by simp [hk, hexa, ht]⟩))
        · exact Or.inr (Or.inr (Or.inr ⟨m, by simp [hk, hexa, hm]⟩))
      | cons r rest =>
        exact Or.inr (Or.inl ⟨r.text, by simp [hk, hexa]⟩)
    | exn m =>
      rcases crawlFallback_cases c (normalize_url url)
          [CrawlCall.exaCall (normalize_url url)] with ⟨t, ht⟩ | ⟨m2, hm⟩
      · exact Or.inr (Or.inr (Or.inl ⟨t, by simp [hk, hexa, ht]⟩))
      · exact Or.inr (Or.inr (Or.inr ⟨m2, by simp [hk, hexa, hm]⟩))

/-- Claim C5: whenever the primary extraction fails by exception or empty
result list under a truthy key, the crawl records a direct-fetch attempt
after the Exa attempt; a direct fetch answered with status 200 yields a
fallback success carrying the soup-cleaned body text, and a direct fetch
raising a transport exception yields the generic error outcome. -/
theorem claim5_fallback_activation (c : Collaborators) (url : String)
    (k : Option String) (hk : apiKeyFalsy k = false)
    (hp : primaryFails c (normalize_url url)) :
    (run_compliance_crawl c url k).2 =
      [CrawlCall.exaCall (normalize_url url),
        CrawlCall.fetchCall (normalize_url url)] ∧
    (∀ body, c.requestsGet (normalize_url url) =
        FetchResponse.response 200 body →
      (run_compliance_crawl c url k).1 =
        CrawlOutcome.ok CrawlSource.fallback (c.soupGetText body)) ∧
    (∀ m, c.requestsGet (normalize_url url) = FetchResponse.exn m →
      (run_compliance_crawl c url k).1 =
        CrawlOutcome.err (scrapingFailedMsg m)) := by
  rw [run_crawl_fallback_eq c url k hk hp]
  unfold crawlFallback
  refine ⟨?_, ?_, ?_⟩
  · cases hf : c.requestsGet (normalize_url url) with
    | exn m => rfl
    | response status body =>
      by_cases hr : raiseForStatus status = true
      · simp [hr]
      · rw [Bool.not_eq_true] at hr
        simp [hr]
  · intro body hf
    rw [hf]
    have hr : raiseForStatus 200 = false := by decide
    simp [hr]
  · intro m hf
    rw [hf]

/-- Claim C5, witness at a concrete failing primary and succeeding
fetch. -/
theorem claim5_fallback_activation_witness :
    apiKeyFalsy (some "exa-key") = false ∧
    (run_compliance_crawl collabFallbackOk "strategiesforwealth.com"
        (some "exa-key")).1 =
      CrawlOutcome.ok CrawlSource.fallback "Guaranteed income for life" :=
  ⟨by decide,
    (claim5_fallback_activation collabFallbackOk "strategiesforwealth.com"
        (some "exa-key") (by decide)
        (Or.inr ⟨"Exa API error: quota exceeded", rfl⟩)).2.1
      "<p>Guaranteed income for life</p>" rfl⟩

/-- Claim C6, counterexample.  A primary response holding one result with
empty text does produce a primary success: the crawl returns the empty
text tagged PRIMARY, because the code tests only that the results list is
non-empty, never the text. -/
theorem claim6_cex :
    run_compliance_crawl collabEmptyText "example.com" (some "exa-key") =
      (CrawlOutcome.ok CrawlSource.primary "",
        [CrawlCall.exaCall "https://example.com"]) := by
  decide

/-- Claim C6, amended.  Retrieval returns a primary success exactly when
the extraction service returns a non-empty results list, carrying the
text of the first result whether or not that text is empty; no emptiness
test of the text is performed. -/
theorem claim6_primary_on_nonempty_list (c : Collaborators) (url : String)
    (k : Option String) (r : ExaResult) (rs : List ExaResult)
    (hk : apiKeyFalsy k = false)
    (he : c.exaGetContents (normalize_url url) =
      ExaResponse.results (r :: rs)) :
    run_compliance_crawl c url k =
      (CrawlOutcome.ok CrawlSource.primary r.text,
        [CrawlCall.exaCall (normalize_url url)]) := by
  unfold run_compliance_crawl
  simp [hk, he]

/-- Claim C6, witness for the amended theorem. -/
theorem claim6_primary_on_nonempty_list_witness :
    apiKeyFalsy (some "exa-key") = false ∧
    run_compliance_crawl collabEmptyText "http://x.com" (some "exa-key") =
      (CrawlOutcome.ok CrawlSource.primary "",
        [CrawlCall.exaCall "http://x.com"]) :=
  ⟨by decide,
    claim6_primary_on_nonempty_list collabEmptyText "http://x.com"
      (some "exa-key") ⟨""⟩ [] (by decide) rfl⟩

/-- Claim C10: a falsy api_key value, absent or empty, makes
run_compliance_crawl return the missing-key error with an empty call
trace: the key test precedes URL sanitization and both retrieval
attempts, so neither the Exa call nor the key-free direct fetch is ever
issued without the primary key. -/
theorem claim10_key_checked_first (c : Collaborators) (url : String)
    (k : Option String) (hk : apiKeyFalsy k = true) :
    run_compliance_crawl c url k = (CrawlOutcome.err "API Key Missing", []) := by
  unfold run_compliance_crawl
  simp [hk]

/-- Claim C10, witness at the absent key and at the empty-string key. -/
theorem claim10_key_checked_first_witness :
    run_compliance_crawl collabFallbackOk "example.com" none =
      (CrawlOutcome.err "API Key Missing", []) ∧
    run_compliance_crawl collabFallbackOk "example.com" (some "") =
      (CrawlOutcome.err "API Key Missing", []) :=
  ⟨claim10_key_checked_first collabFallbackOk "example.com" none (by decide),
    claim10_key_checked_first collabFallbackOk "example.com" (some "")
      (by decide)⟩

/-- Claim C2, counterexample.  On a text containing the FINRA notice but
not the SIPC notice, the specification-side computation demands the
missing-disclosure list Member SIPC, yet the embedded classifier, the
only classification the code performs, returns the empty output: it scans
no mandatory disclosures and produces no missing-disclosure list. -/
theorem claim2_cex :
    analyze_risk_keywords finraOnlyText = [] ∧
    spec_missingDisclosures ["Member FINRA", "Member SIPC"] finraOnlyText =
      ["Member SIPC"] := by
  constructor
  · decide
  · decide

/-- Claim C2, amended.  The classifier performs no mandatory-disclosure
check: every element of its output is a keyword flag built from a
configured cluster whose keyword the lower-cased text contains, and on a
text containing only the FINRA notice the output is empty, with no
missing-disclosure list produced. -/
theorem claim2_no_disclosure_scan :
    (∀ text s, s ∈ analyze_risk_keywords text →
      ∃ q ∈ risk_keywords, ∃ kw ∈ q.2,
        strIn kw (strLower text) = true ∧ s = finding_str q.1 kw) ∧
    analyze_risk_keywords finraOnlyText = [] := by
  constructor
  · intro text s hs
    rw [analyze_eq_flatMap] at hs
    simp only [List.mem_flatMap, List.mem_map, List.mem_filter] at hs
    obtain ⟨q, hq, kw, ⟨hkw, hin⟩, heq⟩ := hs
    exact ⟨q, hq, kw, hkw, hin, heq.symm⟩
  · decide

/-- Claim C2, witness for the amended theorem at a matching text. -/
theorem claim2_no_disclosure_scan_witness :
    ∃ q ∈ risk_keywords, ∃ kw ∈ q.2,
      strIn kw (strLower "crypto") = true ∧
      finding_str "Unapproved Products" "crypto" = finding_str q.1 kw :=
  claim2_no_disclosure_scan.1 "crypto"
    (finding_str "Unapproved Products" "crypto") (by decide)

/-- Claim C3, counterexample.  With an advisor name and a city supplied
but no explicit target URL, the handler halts at its input gate with the
warning even though the search result list offers a top link: the run
never proceeds to retrieval by using the search result link. -/
theorem claim3_cex :
    run_btn_handler "Jane Doe" "Springfield" ""
        (some "https://www.linkedin.com/in/janedoe") =
      RunGate.halted gateWarning := by
  decide

/-- Claim C3, amended.  The handler requires the advisor name, the city
and the explicit target URL all non-empty: if any is empty it halts with
the warning regardless of the search results, and when all are present
the crawl target is exactly the supplied URL; the top search link is
never consulted for target resolution. -/
theorem claim3_explicit_url_required (a c u : String) (top : Option String) :
    ((a = "" ∨ c = "" ∨ u = "") →
      run_btn_handler a c u top = RunGate.halted gateWarning) ∧
    (a ≠ "" → c ≠ "" → u ≠ "" →
      run_btn_handler a c u top = RunGate.proceeds u) ∧
    (∀ top2, run_btn_handler a c u top = run_btn_handler a c u top2) := by
  refine ⟨?_, ?_, fun top2 => rfl⟩
  · intro h
    unfold run_btn_handler
    rcases h with h | h | h <;> simp [h]
  · intro h1 h2 h3
    unfold run_btn_handler
    simp [h1, h2, h3]

/-- Claim C3, witness: with all three inputs supplied the run proceeds on
the explicit URL. -/
theorem claim3_explicit_url_required_witness :
    run_btn_handler "John Smith" "New York" "strategiesforwealth.com" none =
      RunGate.proceeds "strategiesforwealth.com" :=
  (claim3_explicit_url_required "John Smith" "New York"
      "strategiesforwealth.com" none).2.1 (by decide) (by decide) (by decide)

/-- Claim C7, counterexample.  The request the code issues for the name
John Smith and the city New York carries the query with the phrase
financial advisor placed between name and city, which differs from the
claimed name-city-phrase order. -/
theorem claim7_cex :
    (run_google_test serpUnit "John Smith" "New York" (some "serp-key")).2 =
      [⟨"John Smith financial advisor New York", "serp-key", 5⟩] ∧
    ("John Smith financial advisor New York" : String) ≠
      "John Smith New York financial advisor" := by
  constructor
  · decide
  · decide

/-- Claim C7, amended.  For every provider behaviour, name, city and
non-empty key, the single request issued to the provider carries the
query built as name, then the phrase financial advisor, then the city,
with the key and a requested result count of five. -/
theorem claim7_query_order {α : Type} (serp : SearchRequest → SerpResponse α)
    (name city k : String) (hk : k ≠ "") :
    (run_google_test serp name city (some k)).2 =
      [⟨name ++ " financial advisor " ++ city, k, 5⟩] := by
  unfold run_google_test
  have h : apiKeyFalsy (some k) = false := by
    unfold apiKeyFalsy
    simp [hk]
  simp only [h, Bool.false_eq_true, if_false, Option.getD_some]
  cases serp ⟨name ++ " financial advisor " ++ city, k, 5⟩ <;> rfl

/-- Claim C7, witness for the amended theorem. -/
theorem claim7_query_order_witness :
    ("serp-key" : String) ≠ "" ∧
    (run_google_test serpUnit "Jane Doe" "Chicago" (some "serp-key")).2 =
      [⟨"Jane Doe financial advisor Chicago", "serp-key", 5⟩] :=
  ⟨by decide, claim7_query_order serpUnit "Jane Doe" "Chicago" "serp-key"
    (by decide)⟩

/-- Claim C8: URL normalization is a total function that prepends the
https scheme exactly when the input starts with neither scheme marker,
returns inputs already carrying a scheme unchanged, always produces an
output starting with a scheme, and maps the two sample inputs as
claimed. -/
theorem claim8_normalize_total :
    (∀ url : String,
      (strStartsWith url "http://" = false →
        strStartsWith url "https://" = false →
        normalize_url url = "https://" ++ url) ∧
      ((strStartsWith url "http://" = true ∨
          strStartsWith url "https://" = true) →
        normalize_url url = url) ∧
      (strStartsWith (normalize_url url) "http://" = true ∨
        strStartsWith (normalize_url url) "https://" = true)) ∧
    normalize_url "example.com" = "https://example.com" ∧
    normalize_url "http://x.com" = "http://x.com" := by
  refine ⟨fun url => ⟨?_, ?_, ?_⟩, by decide, by decide⟩
  · intro h1 h2
    unfold normalize_url
    simp [h1, h2]
  · intro h
    unfold normalize_url
    rcases h with h | h <;> simp [h]
  · unfold normalize_url
    by_cases h : (strStartsWith url "http://" || strStartsWith url "https://") = true
    · rw [if_pos h]
      exact Bool.or_eq_true_iff.mp h
    · rw [if_neg h]
      right
      unfold strStartsWith
      have hdata : ("https://" ++ url).data = "https://".data ++ url.data := rfl
      rw [hdata]
      exact List.isPrefixOf_iff_prefix.mpr (List.prefix_append _ _)

/-- Claim C8, witness discharging the no-scheme hypotheses at a concrete
input. -/
theorem claim8_normalize_total_witness :
    normalize_url "strategiesforwealth.com" =
      "https://" ++ "strategiesforwealth.com" :=
  (claim8_normalize_total.1 "strategiesforwealth.com").1 (by decide) (by decide)

/-- Claim C9: the classifier is a pure function, so two calls on the same
text give the same output sequence, and the output order is fully fixed
by the configuration: the findings are exactly the in-order flat map over
the configured clusters of the in-order keyword matches against the
lower-cased text. -/
theorem claim9_classifier_deterministic (text : String) :
    analyze_risk_keywords text = analyze_risk_keywords text ∧
    analyze_risk_keywords text =
      risk_keywords.flatMap
        (fun q =>
          (q.2.filter (fun kw => strIn kw (strLower text))).map
            (finding_str q.1)) :=
  ⟨rfl, analyze_eq_flatMap text⟩

end AuditRecon
